import Mathlib

/-!
Verification of the code samples in the apify-docs repository.

The repository is documentation; its code consists of four short samples:
  * `main.js` in `docs/data_collection_fundamentals/save_to_csv.md`
    (lines 80-106): scrape the Alexa Top Sites page with got-scraping and
    cheerio, build a `results` array of six-field records, convert it with
    json2csv's `parse`, and write the CSV to `alexa-websites.csv`;
  * `act_builds_get.js`: an apify-client call
    `apifyClient.actor('<ACTOR ID>').builds().list('test')` whose `items`
    field is logged;
  * the version sample (`unnamed/part_001`): an apify-client call
    `apifyClient.actor('apify~my-sample-actor').version('0.1').get()` whose
    result is logged;
  * `newmain.py` in `unnamed/part_000` (lines 47-62): a Crawlee
    BeautifulSoupCrawler whose default handler prints the stripped page
    title.

The embedding models HTML documents as node forests, the cheerio /
BeautifulSoup selector operations used by the samples, and each sample as
a straight-line program over an environment of third-party operations
(HTTP download, HTML parsing, CSV conversion, file write, API client
call), each of which may fail with a JavaScript/Python error value.  The
trace of events a run performs is made explicit so that sequencing,
logging and file writes can be stated.  The prose of the repository, where
a claim quotes it, is embedded line by line.
-/

/-- An HTML node: either a text node or an element with a tag name, a list
of the classes in its `class` attribute, and child nodes.  This is the
document model on which the cheerio selectors of `main.js` and the
BeautifulSoup accessors of `newmain.py` operate. -/
inductive HNode : Type where
  | text (s : String) : HNode
  | elem (tag : String) (classes : List String) (children : List HNode) : HNode

/-- Whether a node matches a CSS selector of the shape `tag` or
`tag.class`, as in cheerio's `$('div.site-listing')` and
`$(site).find('div.td')`: the node is an element with that tag name and,
when a class is given, carries that class. -/
def matchesSel (tag : String) (cls : Option String) : HNode → Bool
  | .text _ => false
  | .elem t classes _ =>
      t == tag && (match cls with
        | none => true
        | some c => classes.contains c)

mutual

/-- The text content of a node, as cheerio's `.text()` and BeautifulSoup's
`.text` compute it: a text node contributes itself, an element the
concatenated text of its children in order. -/
def textOf : HNode → String
  | .text s => s
  | .elem _ _ children => textOfList children

/-- The concatenated text content of a list of nodes. -/
def textOfList : List HNode → String
  | [] => ""
  | c :: cs => textOf c ++ textOfList cs

end

mutual

/-- All nodes of the subtree rooted at a node (the node itself included)
matching the selector, in document order. -/
def findAll (tag : String) (cls : Option String) : HNode → List HNode
  | .text s =>
      if matchesSel tag cls (.text s) then [HNode.text s] else []
  | .elem t classes children =>
      (if matchesSel tag cls (.elem t classes children)
        then [HNode.elem t classes children] else [])
        ++ findAllList tag cls children

/-- All matching nodes of a forest, in document order. -/
def findAllList (tag : String) (cls : Option String) : List HNode → List HNode
  | [] => []
  | n :: ns => findAll tag cls n ++ findAllList tag cls ns

end

/-- The matching proper descendants of a node, in document order: cheerio's
`$(site).find('div.td')` searches descendants only, never the node
itself. -/
def findDescendants (tag : String) (cls : Option String) : HNode → List HNode
  | .text _ => []
  | .elem _ _ children => findAllList tag cls children

/-- The `sites` array of `main.js`: `$('div.site-listing').toArray()`, every
`div` with class `site-listing` in the parsed document, in document
order. -/
def siteListings (doc : List HNode) : List HNode :=
  findAllList "div" (some "site-listing") doc

/-- The `fields` selection of `main.js`: `$(site).find('div.td')`, the `div`
descendants of one site listing that carry class `td`, in document
order. -/
def tdFields (site : HNode) : List HNode :=
  findDescendants "div" (some "td") site

/-- Cheerio's `fields.eq(k).text()`: the text of the `k`-th node of the
selection; `eq` on an out-of-range index yields an empty selection, whose
`.text()` is the empty string. -/
def eqText (sel : List HNode) (k : Nat) : String :=
  match sel[k]? with
  | some n => textOf n
  | none => ""

/-- JavaScript's `String.prototype.trim()` (and Python's `str.strip()` with
no argument): remove whitespace characters from both ends of the
string. -/
def jsTrim (s : String) : String :=
  ⟨((s.data.dropWhile Char.isWhitespace).reverse.dropWhile Char.isWhitespace).reverse⟩

/-- One record of the `results` array of `main.js`: the object literal with
the six fields `rank`, `site`, `dailyTimeOnSite`, `dailyPageViews`,
`percentFromSearch`, `totalLinkingSites`. -/
structure SiteRecord where
  rank : String
  site : String
  dailyTimeOnSite : String
  dailyPageViews : String
  percentFromSearch : String
  totalLinkingSites : String
deriving DecidableEq

/-- The record `main.js` builds from one `div.site-listing` element:
`fields.eq(k).text().trim()` for k = 0..5 over its `div.td`
descendants. -/
def mkSiteRecord (site : HNode) : SiteRecord :=
  let fields := tdFields site
  { rank := jsTrim (eqText fields 0)
    site := jsTrim (eqText fields 1)
    dailyTimeOnSite := jsTrim (eqText fields 2)
    dailyPageViews := jsTrim (eqText fields 3)
    percentFromSearch := jsTrim (eqText fields 4)
    totalLinkingSites := jsTrim (eqText fields 5) }

/-- The `results` array of `main.js`: `sites.map((site) => ...)`. -/
def results (doc : List HNode) : List SiteRecord :=
  (siteListings doc).map mkSiteRecord

/-- The `k`-th of the six fields of a record, in the order the object
literal of `main.js` lists them (0 = rank .. 5 = totalLinkingSites). -/
def recordField (r : SiteRecord) : Nat → String
  | 0 => r.rank
  | 1 => r.site
  | 2 => r.dailyTimeOnSite
  | 3 => r.dailyPageViews
  | 4 => r.percentFromSearch
  | 5 => r.totalLinkingSites
  | _ => ""

/-- A JavaScript (or Python) runtime error value, carried unchanged when an
operation rejects. -/
inductive JsError : Type where
  | err (msg : String) : JsError
deriving DecidableEq

/-- The part of a got-scraping response that `main.js` uses: its `body`
string. -/
structure HttpResponse where
  body : String
deriving DecidableEq

/-- One observable step of the `main.js` sample, in the order its await /
call statements perform them: the HTTP request, the cheerio parse of the
downloaded body, the json2csv conversion, and the file write with its file
name and contents. -/
inductive Event : Type where
  | httpRequest (url : String) : Event
  | htmlLoad (html : String) : Event
  | csvConvert : Event
  | fileWrite (name contents : String) : Event
deriving DecidableEq

/-- The third-party operations `main.js` calls, each of which may fail with
a runtime error: `gotScraping` (the awaited HTTP download), `cheerio.load`
(parsing the body into a document forest), json2csv's `parse`, and
`writeFileSync`. -/
structure CsvEnv where
  gotScraping : String → Except JsError HttpResponse
  cheerioLoad : String → Except JsError (List HNode)
  parse : List SiteRecord → Except JsError String
  writeFileSync : String → String → Except JsError Unit

/-- The `main.js` sample of `save_to_csv.md` (lines 80-106), statement by
statement: download `https://www.alexa.com/topsites`, take `response.body`,
parse it with cheerio, build `results`, convert with `parse(results)`, and
write the CSV to `alexa-websites.csv`.  The run returns the sample's
outcome (normal completion or the first error, unchanged) together with
the trace of the operations it performed; there is no catch anywhere, so
an error ends the run at the failing statement. -/
def csvMainRun (env : CsvEnv) : Except JsError Unit × List Event :=
  match env.gotScraping "https://www.alexa.com/topsites" with
  | .error e => (.error e, [.httpRequest "https://www.alexa.com/topsites"])
  | .ok response =>
    let html := response.body
    match env.cheerioLoad html with
    | .error e =>
        (.error e, [.httpRequest "https://www.alexa.com/topsites", .htmlLoad html])
    | .ok doc =>
      match env.parse (results doc) with
      | .error e =>
          (.error e, [.httpRequest "https://www.alexa.com/topsites", .htmlLoad html,
            .csvConvert])
      | .ok csv =>
        match env.writeFileSync "alexa-websites.csv" csv with
        | .error e =>
            (.error e, [.httpRequest "https://www.alexa.com/topsites", .htmlLoad html,
              .csvConvert, .fileWrite "alexa-websites.csv" csv])
        | .ok _ =>
            (.ok (), [.httpRequest "https://www.alexa.com/topsites", .htmlLoad html,
              .csvConvert, .fileWrite "alexa-websites.csv" csv])

/-- The file writes a trace performed, as (file name, contents) pairs. -/
def fileWrites (tr : List Event) : List (String × String) :=
  tr.filterMap fun ev =>
    match ev with
    | .fileWrite name contents => some (name, contents)
    | _ => none

/-- The position, in program order, of the `main.js` statement an event
belongs to. -/
def eventStep : Event → Nat
  | .httpRequest _ => 0
  | .htmlLoad _ => 1
  | .csvConvert => 2
  | .fileWrite _ _ => 3

/-- The part of apify-client's build-collection `list()` response the
builds sample uses: its `items` field (destructured) and the rest of the
paging envelope, kept abstract. -/
structure BuildList (α β : Type) where
  items : α
  paging : β
deriving DecidableEq

/-- One observable step of an apify-client sample: the single client call
(with the token the client was constructed with, the actor addressed, and
the argument of the call), or a `console.log` of a value. -/
inductive ApiEvent (α : Type) : Type where
  | call (token actorId arg : String) : ApiEvent α
  | consoleLog (value : α) : ApiEvent α
deriving DecidableEq

/-- The `act_builds_get.js` sample: construct an `ApifyClient` with token
`<TOKEN>`, await `.actor('<ACTOR ID>').builds().list('test')`, destructure
`items` from the response, and `console.log(items)`.  `listBuilds` is the
client's behavior (token, actor id, list argument to response); the run
returns the outcome and the trace. -/
def actBuildsGetRun {α β : Type}
    (listBuilds : String → String → String → Except JsError (BuildList α β)) :
    Except JsError Unit × List (ApiEvent α) :=
  match listBuilds "<TOKEN>" "<ACTOR ID>" "test" with
  | .error e => (.error e, [.call "<TOKEN>" "<ACTOR ID>" "test"])
  | .ok resp => (.ok (), [.call "<TOKEN>" "<ACTOR ID>" "test", .consoleLog resp.items])

/-- The version sample of `unnamed/part_001`: construct an `ApifyClient`
with token `my-token`, await
`.actor('apify~my-sample-actor').version('0.1').get()`, and
`console.log(version)`.  `getVersion` is the client's behavior (token,
actor id, version number to version object). -/
def actVersionGetRun {γ : Type}
    (getVersion : String → String → String → Except JsError γ) :
    Except JsError Unit × List (ApiEvent γ) :=
  match getVersion "my-token" "apify~my-sample-actor" "0.1" with
  | .error e => (.error e, [.call "my-token" "apify~my-sample-actor" "0.1"])
  | .ok version =>
      (.ok (), [.call "my-token" "apify~my-sample-actor" "0.1", .consoleLog version])

/-- The position, in program order, of the statement an apify-client sample
event belongs to: the awaited client call, then the log. -/
def apiStep {α : Type} : ApiEvent α → Nat
  | .call _ _ _ => 0
  | .consoleLog _ => 1

/-- BeautifulSoup's `soup.title`: the first `title` element of the parsed
document in document order, or `None` when there is none. -/
def soupTitle (soup : List HNode) : Option HNode :=
  (findAllList "title" none soup).head?

/-- The default handler `handle_listing` of `newmain.py` (lines 54-56 of
the framework lesson): `print(context.soup.title.text.strip())`.  Its only
effect is the lines it prints; when the page has no `title` element,
`soup.title` is `None` and the attribute access raises, so the handler
fails.  The result is the list of printed lines. -/
def handle_listing (soup : List HNode) : Except JsError (List String) :=
  match soupTitle soup with
  | none => .error (.err "AttributeError")
  | some t => .ok [jsTrim (textOf t)]

/-- The text of `apify-api/openapi/code_samples/javascript/act_builds_get.js`,
line by line. -/
def actBuildsGetLines : List String := [
  "import \x7b ApifyClient \x7d from 'apify-client';",
  "",
  "const apifyClient = new ApifyClient(\x7b",
  "    token: '<TOKEN>',",
  "\x7d);",
  "const \x7b items \x7d = await apifyClient",
  "    .actor('<ACTOR ID>')",
  "    .builds()",
  "    .list('test');",
  "",
  "console.log(items);"
]

/-- The text of `docs/data_collection_fundamentals/save_to_csv.md`, line by
line (a brace of the original text is written with an x7b / x7d escape). -/
def saveToCsvLines : List String := [
  "---",
  "title: Saving results to CSV",
  "description: Learn how to save the results of your scraper to a CSV file.",
  "menuWeight: 20.8",
  "paths:",
  "    - data_collection_fundamentals/save-to-csv",
  "---",
  "",
  "# [](#saving-to-csv) Saving results as a CSV",
  "",
  "In the last chapter we were able extract data about all the websites from the [Alexa Top Sites index](https://www.alexa.com/topsites). That's great. But we ended up with results printed to the terminal, which is not very useful for further processing. In this chapter we'll learn how to save that data into a CSV file which you can then open in Excel or Google Sheets.",
  "",
  "## [](#converting-to-csv) Converting to CSV",
  "",
  "It might look like a big programming challenge to transform a JavaScript object into a CSV, but thanks to NPM, it will be a piece of cake. After googling `json to csv npm` we found that there's a library called [`json2csv`](https://www.npmjs.com/package/json2csv) that can convert a JavaScript object to a CSV with a single function call. Perfect.",
  "",
  "First we need to import the `parse()` function from the library.",
  "",
  "```js",
  "import \x7b parse \x7d from 'json2csv';",
  "```",
  "",
  "and then we need to parse the `results` from the previous chapter.",
  "",
  "```js",
  "const csv = parse(results);",
  "```",
  "",
  "The full code including the earlier scraping part now looks like this.",
  "",
  "```js",
  "// main.js",
  "import \x7b gotScraping \x7d from 'got-scraping';",
  "import cheerio from 'cheerio';",
  "import \x7b parse \x7d from 'json2csv';",
  "",
  "const response = await gotScraping('https://www.alexa.com/topsites');",
  "const html = response.body;",
  "",
  "const $ = cheerio.load(html);",
  "const sites = $('div.site-listing').toArray();",
  "const results = sites.map((site) => \x7b",
  "    const fields = $(site).find('div.td');",
  "    return \x7b",
  "        rank: fields.eq(0).text().trim(),",
  "        site: fields.eq(1).text().trim(),",
  "        dailyTimeOnSite: fields.eq(2).text().trim(),",
  "        dailyPageViews: fields.eq(3).text().trim(),",
  "        percentFromSearch: fields.eq(4).text().trim(),",
  "        totalLinkingSites: fields.eq(5).text().trim(),",
  "    \x7d;",
  "\x7d);",
  "",
  "const csv = parse(results);",
  "console.log(csv);",
  "```",
  "",
  "And here's our newly created CSV printed to the console after running the script.",
  "",
  "![Printing CSV data to terminal](\x7b\x7b@asset data_collection_fundamentals/images/terminal-csv.webp\x7d\x7d)",
  "",
  "## [](#writing-to-file) Writing the CSV to a file",
  "",
  "The final task that remains is to save our CSV formatted data to a file on our disk, so we can open it or send it to someone. For this we don't need any extra NPM packages, because functions for saving files are included in Node.js.",
  "",
  "First we import the `writeFileSync` function from the `fs` (file system) package.",
  "",
  "```js",
  "import \x7b writeFileSync \x7d from 'fs';",
  "```",
  "",
  "and then we call it with a file name and the CSV data.",
  "",
  "```js",
  "writeFileSync('alexa-websites.csv', csv);",
  "```",
  "",
  "When we complete the code, it looks like this.",
  "",
  "```js",
  "// main.js",
  "import \x7b gotScraping \x7d from 'got-scraping';",
  "import cheerio from 'cheerio';",
  "import \x7b parse \x7d from 'json2csv';",
  "import \x7b writeFileSync \x7d from 'fs';",
  "",
  "const response = await gotScraping('https://www.alexa.com/topsites');",
  "const html = response.body;",
  "",
  "const $ = cheerio.load(html);",
  "const sites = $('div.site-listing').toArray();",
  "const results = sites.map((site) => \x7b",
  "    const fields = $(site).find('div.td');",
  "    return \x7b",
  "        rank: fields.eq(0).text().trim(),",
  "        site: fields.eq(1).text().trim(),",
  "        dailyTimeOnSite: fields.eq(2).text().trim(),",
  "        dailyPageViews: fields.eq(3).text().trim(),",
  "        percentFromSearch: fields.eq(4).text().trim(),",
  "        totalLinkingSites: fields.eq(5).text().trim(),",
  "    \x7d;",
  "\x7d);",
  "",
  "const csv = parse(results);",
  "writeFileSync('alexa-websites.csv', csv);",
  "```",
  "",
  "Finally, after running it again, we will find the `alexa-websites.csv` file in our project folder. And when we open it with Excel, voila.",
  "",
  "![Displaying CSV data in Excel](\x7b\x7b@asset data_collection_fundamentals/images/data-in-excel.webp\x7d\x7d)",
  "",
  "This marks the end of the Fundamentals of data extraction section of the Web Scraping Academy. If you enjoyed the tutorial, give us a thumbs up down below and if you're eager to learn more...",
  "",
  "## [](#next) Next up",
  "",
  "Next up are the Fundamentals of crawling, where we will learn how to move between web pages and scrape data from all of them. We will build a scraper that first collects all the countries of the [Alexa Top Sites by Country index](https://www.alexa.com/topsites/countries) and then crawls each of them to scrape the data for each country separately."
]

/-- The text of `unnamed/part_000` (the lesson "Using a scraping framework
with Python"), line by line. -/
def part000Lines : List String := [
  "---",
  "title: Using a scraping framework with Python",
  "sidebar_label: Using a framework",
  "description: Lesson about building a Python application for watching prices. Using the Crawlee framework to simplify creating a scraper.",
  "sidebar_position: 12",
  "slug: /scraping-basics-python/framework",
  "---",
  "",
  "**In this lesson, we'll rework our application for watching prices so that it builds on top of a scraping framework. We'll use Crawlee to make the program simpler, faster, and more robust.**",
  "",
  "---",
  "",
  "Before rewriting our code, let's point out several caveats in our current solution:",
  "",
  "- **Hard to maintain:** All the data we need from the listing page is also available on the product page. By scraping both, we have to maintain selectors for two HTML documents. Instead, we could scrape links from the listing page and process all data on the product pages.",
  "- **Slow:** The program runs sequentially, which is generously considerate toward the target website, but extremely inefficient.",
  "- **No logging:** The scraper gives no sense of progress, making it tedious to use. Debugging issues becomes even more frustrating without proper logs.",
  "- **Boilerplate code:** We implement downloading and parsing HTML, or exporting data to CSV, although we're not the first people to meet and solve these problems.",
  "- **Prone to anti-scraping:** If the target website implemented anti-scraping measures, a bare-bones program like ours would stop working.",
  "- **Browser means rewrite:** We got lucky extracting variants. If the website didn't include a fallback, we might have had no choice but to spin up a browser instance and automate clicking on buttons. Such a change in the underlying technology would require a complete rewrite of our program.",
  "- **No error handling:** The scraper stops if it encounters issues. It should allow for skipping problematic products with warnings or retrying downloads when the website returns temporary errors.",
  "",
  "In this lesson, we'll tackle all the above issues while keeping the code concise thanks to a scraping framework.",
  "",
  ":::info Why Crawlee and not Scrapy",
  "",
  "From the two main open-source options for Python, [Scrapy](https://scrapy.org/) and [Crawlee](https://crawlee.dev/python/), we chose the latter—not just because we're the company financing its development.",
  "",
  "We genuinely believe beginners to scraping will like it more, since it allows to create a scraper with less code and less time spent reading docs. Scrapy's long history ensures it's battle-tested, but it also means its code relies on technologies that aren't really necessary today. Crawlee, on the other hand, builds on modern Python features like asyncio and type hints.",
  "",
  ":::",
  "",
  "## Installing Crawlee",
  "",
  "When starting with the Crawlee framework, we first need to decide which approach to downloading and parsing we prefer. We want the one based on BeautifulSoup, so let's install the `crawlee` package with the `beautifulsoup` extra specified in brackets. The framework has a lot of dependencies, so expect the installation to take a while.",
  "",
  "```text",
  "$ pip install crawlee[beautifulsoup]",
  "...",
  "Successfully installed Jinja2-0.0.0 ... ... ... crawlee-0.0.0 ... ... ...",
  "```",
  "",
  "## Running Crawlee",
  "",
  "Now let's use the framework to create a new version of our scraper. In the same project directory where our `main.py` file lives, create a file `newmain.py`. This way, we can keep peeking at the original implementation while working on the new one. The initial content will look like this:",
  "",
  "```py title=\"newmain.py\"",
  "import asyncio",
  "from crawlee.beautifulsoup_crawler import BeautifulSoupCrawler",
  "",
  "async def main():",
  "    crawler = BeautifulSoupCrawler()",
  "",
  "    @crawler.router.default_handler",
  "    async def handle_listing(context):",
  "        print(context.soup.title.text.strip())",
  "",
  "    await crawler.run([\"https://warehouse-theme-metal.myshopify.com/collections/sales\"])",
  "",
  "if __name__ == '__main__':",
  "    asyncio.run(main())",
  "```",
  "",
  "In the code, we do the following:",
  "",
  "1.  We perform imports and specify an asynchronous `main()` function.",
  "1.  Inside, we first create a crawler. The crawler objects control the scraping. This particular crawler is of the BeautifulSoup flavor.",
  "1.  In the middle, we give the crawler a nested asynchronous function `handle_listing()`. Using a Python decorator (that line starting with `@`), we tell it to treat it as a default handler. Handlers take care of processing HTTP responses. This one finds the title of the page in `soup` and prints its text without whitespace.",
  "1.  The function ends with running the crawler with the product listing URL. We await the crawler to finish its work.",
  "1.  The last two lines ensure that if we run the file as a standalone program, Python's asynchronous machinery will run our `main()` function.",
  "",
  "Don't worry if this involves a lot of things you've never seen before. For now, you don't need to know exactly how [`asyncio`](https://docs.python.org/3/library/asyncio.html) works or what decorators do. Let's stick to the practical side and see what the program does when executed:",
  "",
  "```text",
  "$ python newmain.py",
  "[crawlee.beautifulsoup_crawler._beautifulsoup_crawler] INFO  Current request statistics:",
  "┌───────────────────────────────┬──────────┐",
  "│ requests_finished             │ 0        │",
  "│ requests_failed               │ 0        │",
  "│ retry_histogram               │ [0]      │",
  "│ request_avg_failed_duration   │ None     │",
  "│ request_avg_finished_duration │ None     │",
  "│ requests_finished_per_minute  │ 0        │",
  "│ requests_failed_per_minute    │ 0        │",
  "│ request_total_duration        │ 0.0      │",
  "│ requests_total                │ 0        │",
  "│ crawler_runtime               │ 0.010014 │",
  "└───────────────────────────────┴──────────┘",
  "[crawlee._autoscaling.autoscaled_pool] INFO  current_concurrency = 0; desired_concurrency = 2; cpu = 0; mem = 0; event_loop = 0.0; client_info = 0.0",
  "Sales",
  "[crawlee._autoscaling.autoscaled_pool] INFO  Waiting for remaining tasks to finish",
  "[crawlee.beautifulsoup_crawler._beautifulsoup_crawler] INFO  Final request statistics:",
  "┌───────────────────────────────┬──────────┐",
  "│ requests_finished             │ 1        │",
  "│ requests_failed               │ 0        │",
  "│ retry_histogram               │ [1]      │",
  "│ request_avg_failed_duration   │ None     │",
  "│ request_avg_finished_duration │ 0.308998 │",
  "│ requests_finished_per_minute  │ 185      │",
  "│ requests_failed_per_minute    │ 0        │",
  "│ request_total_duration        │ 0.308998 │",
  "│ requests_total                │ 1        │",
  "│ crawler_runtime               │ 0.323721 │",
  "└───────────────────────────────┴──────────┘",
  "```",
  "",
  "If our previous scraper didn't give us any sense of progress, Crawlee feeds us with perhaps too much information for the purposes of a small program. Among all the logging, notice the line `Sales`. That's the page title! We managed to create a Crawlee scraper that downloads the product listing page, parses it with BeautifulSoup, extracts the title, and prints it.",
  "",
  "## Crawling product detail pages",
  "",
  "The code now features advanced Python concepts, so it's less accessible to beginners, and the size of the program is about the same as if we worked without a framework. The tradeoff of using a framework is that primitive scenarios may become unnecessarily complex, while complex scenarios may become surprisingly primitive.",
  "",
  "As we rewrite the rest of the program, the benefits of using Crawlee will become more apparent. For example, it takes a single line of code to extract and follow links to products. Three more lines, and we have parallel processing of all the product detail pages:",
  "",
  "```py",
  "import asyncio",
  "from crawlee.beautifulsoup_crawler import BeautifulSoupCrawler",
  "",
  "async def main():",
  "    crawler = BeautifulSoupCrawler()",
  "",
  "    @crawler.router.default_handler",
  "    async def handle_listing(context):",
  "        # highlight-next-line",
  "        await context.enqueue_links(label=\"DETAIL\", selector=\".product-list a.product-item__title\")",
  "",
  "    # highlight-next-line",
  "    @crawler.router.handler(\"DETAIL\")",
  "    # highlight-next-line",
  "    async def handle_detail(context):",
  "        # highlight-next-line",
  "        print(context.request.url)",
  "",
  "    await crawler.run([\"https://warehouse-theme-metal.myshopify.com/collections/sales\"])",
  "",
  "if __name__ == '__main__':",
  "    asyncio.run(main())",
  "```",
  "",
  "First, it's necessary to inspect the page in browser DevTools to figure out the CSS selector that allows us to locate links to all the product detail pages. Then we can use the `enqueue_links()` method to find the links and add them to Crawlee's internal HTTP request queue. We tell the method to label all the requests as `DETAIL`.",
  "",
  "Below that, we give the crawler another asynchronous function, `handle_detail()`. We again inform the crawler that this function is a handler using a decorator, but this time it's not a default one. This handler will only take care of HTTP requests labeled as `DETAIL`. For now, all it does is print the request URL.",
  "",
  "If we run the code, we should see how Crawlee first downloads the listing page and then makes parallel requests to each of the detail pages, printing their URLs along the way:",
  "",
  "```text",
  "$ python newmain.py",
  "[crawlee.beautifulsoup_crawler._beautifulsoup_crawler] INFO  Current request statistics:",
  "┌───────────────────────────────┬──────────┐",
  "...",
  "└───────────────────────────────┴──────────┘",
  "[crawlee._autoscaling.autoscaled_pool] INFO  current_concurrency = 0; desired_concurrency = 2; cpu = 0; mem = 0; event_loop = 0.0; client_info = 0.0",
  "https://warehouse-theme-metal.myshopify.com/products/sony-xbr-65x950g-65-class-64-5-diag-bravia-4k-hdr-ultra-hd-tv",
  "https://warehouse-theme-metal.myshopify.com/products/jbl-flip-4-waterproof-portable-bluetooth-speaker",
  "https://warehouse-theme-metal.myshopify.com/products/sony-sacs9-10-inch-active-subwoofer",
  "https://warehouse-theme-metal.myshopify.com/products/sony-ps-hx500-hi-res-usb-turntable",
  "...",
  "[crawlee._autoscaling.autoscaled_pool] INFO  Waiting for remaining tasks to finish",
  "[crawlee.beautifulsoup_crawler._beautifulsoup_crawler] INFO  Final request statistics:",
  "┌───────────────────────────────┬──────────┐",
  "│ requests_finished             │ 25       │",
  "│ requests_failed               │ 0        │",
  "│ retry_histogram               │ [25]     │",
  "│ request_avg_failed_duration   │ None     │",
  "│ request_avg_finished_duration │ 0.349434 │",
  "│ requests_finished_per_minute  │ 318      │",
  "│ requests_failed_per_minute    │ 0        │",
  "│ request_total_duration        │ 8.735843 │",
  "│ requests_total                │ 25       │",
  "│ crawler_runtime               │ 4.713262 │",
  "└───────────────────────────────┴──────────┘",
  "```",
  "",
  "In the final statistics, you can see that we made 25 requests (1 listing page + 24 product pages) in less than 5 seconds. Your numbers might differ, but regardless, it should be much faster than making the requests sequentially.",
  "",
  "## Extracting data",
  "",
  "The BeautifulSoup crawler provides handlers with the `context.soup` attribute, where we can find the parsed HTML of the handled page. This is the same as the `soup` we had in our previous program.",
  "",
  ":::danger Work in progress",
  "",
  "This course is incomplete. As we work on adding new lessons, we would love to hear your feedback. You can comment right here under each page or [file a GitHub Issue](https://github.com/apify/apify-docs/issues) to discuss a problem.",
  "",
  ":::",
  "",
  "## Saving data",
  "",
  ":::danger Work in progress",
  "",
  "This course is incomplete. As we work on adding new lessons, we would love to hear your feedback. You can comment right here under each page or [file a GitHub Issue](https://github.com/apify/apify-docs/issues) to discuss a problem.",
  "",
  ":::"
]

/-- The text of `unnamed/part_001` (the version get sample), line by
line. -/
def part001Lines : List String := [
  "import \x7b ApifyClient \x7d from 'apify-client';",
  "",
  "const apifyClient = new ApifyClient(\x7b token: 'my-token' \x7d);",
  "// Replace apify~my-sample-actor with your Actor's ID or technical name",
  "const version = await apifyClient.actor('apify~my-sample-actor')",
  "    .version('0.1')",
  "    .get();",
  "",
  "console.log(version);",
  ""
]

/-- The character sequence of a file given as its list of lines: the lines
joined by the newline character. -/
def joinLines : List String → List Char
  | [] => []
  | [l] => l.data
  | l :: l2 :: ls => l.data ++ '\n' :: joinLines (l2 :: ls)

/-- The first phrase the claim quotes, verbatim. -/
def claimPhrase1 : String := "don't worry if you've never seen this before"

/-- The second phrase the claim quotes, verbatim. -/
def claimPhrase2 : String := "this course is incomplete"

/-- The sentence the lesson actually opens its reassurance with
(`unnamed/part_000`, line 72). -/
def actualPhrase1 : String := "Don't worry if this involves a lot of things you've never seen before"

/-- The sentence the work-in-progress notice actually starts with
(`unnamed/part_000`, lines 182 and 190). -/
def actualPhrase2 : String := "This course is incomplete"

/-- Line 72 of `unnamed/part_000`, the line holding the reassurance
sentence. -/
def part000Line72 : String := "Don't worry if this involves a lot of things you've never seen before. For now, you don't need to know exactly how [`asyncio`](https://docs.python.org/3/library/asyncio.html) works or what decorators do. Let's stick to the practical side and see what the program does when executed:"

/-- Line 182 of `unnamed/part_000`, the first line of the work-in-progress
notice (line 190 repeats it). -/
def part000Line182 : String := "This course is incomplete. As we work on adding new lessons, we would love to hear your feedback. You can comment right here under each page or [file a GitHub Issue](https://github.com/apify/apify-docs/issues) to discuss a problem."

/-- Whether an event is the json2csv conversion step. -/
def isCsvConvert : Event → Bool
  | .csvConvert => true
  | _ => false

/-- A sample row of six table cells, for evaluating the embedding on a
concrete input. -/
def sampleTds : List HNode :=
  [.elem "div" ["td"] [.text " 1 "],
   .elem "div" ["td"] [.text " google.com "],
   .elem "div" ["td"] [.text " 15:31 "],
   .elem "div" ["td"] [.text " 17.12 "],
   .elem "div" ["td"] [.text " 2.10% "],
   .elem "div" ["td"] [.text " 1,586,167 "]]

/-- A sample site listing element holding the six cells. -/
def sampleSite : HNode := .elem "div" ["site-listing"] sampleTds

/-- A site listing with a single cell, for the short-row case. -/
def shortSite : HNode :=
  .elem "div" ["site-listing"] [.elem "div" ["td"] [.text " 7 "]]

/-- A sample document holding one site listing. -/
def sampleDoc : List HNode := [.elem "body" [] [sampleSite]]

/-- A sample page title element. -/
def sampleTitle : HNode := .elem "title" [] [.text " Sales "]

/-- A sample parsed page holding the title. -/
def sampleSoup : List HNode := [.elem "html" [] [.elem "head" [] [sampleTitle]]]

/-- An environment in which every operation of `main.js` succeeds. -/
def okEnv : CsvEnv where
  gotScraping := fun _ => .ok ⟨"alexa html"⟩
  cheerioLoad := fun _ => .ok sampleDoc
  parse := fun _ => .ok "rank,site"
  writeFileSync := fun _ _ => .ok ()

/-- The succeeding environment with a failing disk: only the file write
differs from `okEnv`. -/
def okEnv2 : CsvEnv :=
  { okEnv with writeFileSync := fun _ _ => .error (.err "EACCES") }

/-- An environment in which the HTTP download is refused. -/
def failEnv : CsvEnv where
  gotScraping := fun _ => .error (.err "ECONNREFUSED")
  cheerioLoad := fun _ => .ok []
  parse := fun _ => .ok ""
  writeFileSync := fun _ _ => .ok ()

/-- A client behavior returning one build for any list request. -/
def okListBuilds : String → String → String → Except JsError (BuildList (List String) Nat) :=
  fun _ _ _ => .ok ⟨["build1"], 1⟩

/-- A client behavior rejecting every list request. -/
def failListBuilds : String → String → String → Except JsError (BuildList (List String) Nat) :=
  fun _ _ _ => .error (.err "Actor was not found")

/-- A client behavior returning a version object for any get request. -/
def okGetVersion : String → String → String → Except JsError String :=
  fun _ _ _ => .ok "version-0.1"


/-- A prefix of a list that ends before a separator the prefix does not
contain is a prefix of the part before the separator. -/
theorem prefix_stops_at_sep {α : Type} (c : α) :
    ∀ (pat a b : List α), c ∉ pat → pat <+: a ++ c :: b → pat <+: a := by
  intro pat
  induction pat with
  | nil => intro a b _ _; exact List.nil_prefix
  | cons p ps ih =>
    intro a b hc h
    cases a with
    | nil =>
      rw [List.nil_append, List.cons_prefix_cons] at h
      exact absurd (h.1 ▸ List.mem_cons_self p ps) hc
    | cons x a2 =>
      rw [List.cons_append, List.cons_prefix_cons] at h
      have hps : ps <+: a2 := ih a2 b (fun hm => hc (List.mem_cons_of_mem p hm)) h.2
      exact List.cons_prefix_cons.mpr ⟨h.1, hps⟩

/-- A contiguous occurrence inside `a ++ c :: b` of a pattern that does not
contain the separator `c` lies inside `a` or inside `b`. -/
theorem infix_splits_at_sep {α : Type} (c : α) (pat : List α) (hc : c ∉ pat) :
    ∀ (a b s t : List α), s ++ (pat ++ t) = a ++ c :: b → pat <:+: a ∨ pat <:+: b := by
  intro a
  induction a with
  | nil =>
    intro b s t h
    rw [List.nil_append] at h
    cases s with
    | nil =>
      rw [List.nil_append] at h
      cases pat with
      | nil => exact Or.inl (List.nil_infix)
      | cons p ps =>
        rw [List.cons_append] at h
        injection h with h1 _
        exact absurd (h1 ▸ List.mem_cons_self p ps) hc
    | cons x s2 =>
      rw [List.cons_append] at h
      injection h with _ h2
      exact Or.inr ⟨s2, t, by simpa using h2⟩
  | cons y a2 ih =>
    intro b s t h
    cases s with
    | nil =>
      rw [List.nil_append] at h
      have hpre : pat <+: (y :: a2) ++ c :: b := ⟨t, by simpa using h⟩
      exact Or.inl (prefix_stops_at_sep c pat (y :: a2) b hc hpre).isInfix
    | cons x s2 =>
      rw [List.cons_append, List.cons_append] at h
      injection h with _ h2
      rcases ih b s2 t h2 with h3 | h3
      · exact Or.inl (List.infix_cons h3)
      · exact Or.inr h3

/-- A nonempty pattern without a newline that occurs in a file occurs in
one of its lines. -/
theorem not_infix_joinLines (pat : List Char) (hne : pat ≠ []) (hnl : '\n' ∉ pat) :
    ∀ (lines : List String), (∀ l ∈ lines, ¬ pat <:+: l.data) →
      ¬ pat <:+: joinLines lines := by
  intro lines
  induction lines with
  | nil =>
    intro _ hinf
    rw [joinLines, List.infix_nil] at hinf
    exact hne hinf
  | cons l ls ih =>
    intro h
    cases ls with
    | nil =>
      rw [joinLines]
      exact h l (List.mem_cons_self l [])
    | cons l2 ls2 =>
      rw [joinLines]
      intro hinf
      obtain ⟨s, t, hst⟩ := hinf
      rcases infix_splits_at_sep '\n' pat hnl l.data (joinLines (l2 :: ls2)) s t
          (by rw [← List.append_assoc]; exact hst) with h1 | h1
      · exact h l (List.mem_cons_self l (l2 :: ls2)) h1
      · exact ih (fun x hx => h x (List.mem_cons_of_mem l hx)) h1

/-- The text of each line of a file is contiguous in the joined file
text. -/
theorem mem_infix_joinLines :
    ∀ (lines : List String) (l : String), l ∈ lines → l.data <:+: joinLines lines := by
  intro lines
  induction lines with
  | nil => intro l h; cases h
  | cons a ls ih =>
    intro l h
    cases ls with
    | nil =>
      rcases List.mem_cons.mp h with rfl | h2
      · rw [joinLines]
      · cases h2
    | cons a2 ls2 =>
      rcases List.mem_cons.mp h with rfl | h2
      · rw [joinLines]
        exact (List.prefix_append l.data ('\n' :: joinLines (a2 :: ls2))).isInfix
      · have hsuf : joinLines (a2 :: ls2) <:+ joinLines (a :: a2 :: ls2) := by
          rw [joinLines]
          exact (List.suffix_cons '\n' (joinLines (a2 :: ls2))).trans
            (List.suffix_append a.data ('\n' :: joinLines (a2 :: ls2)))
        exact (ih l h2).trans hsuf.isInfix

set_option maxRecDepth 4000 in
set_option maxHeartbeats 4000000 in
/-- The first quoted phrase occurs in no line of `act_builds_get.js`. -/
theorem claimPhrase1_notIn_actBuildsGet : ¬ claimPhrase1.data <:+: joinLines actBuildsGetLines :=
  not_infix_joinLines claimPhrase1.data (by decide) (by decide) actBuildsGetLines (by decide)

set_option maxRecDepth 4000 in
set_option maxHeartbeats 16000000 in
/-- The first quoted phrase occurs in no line of `save_to_csv.md`. -/
theorem claimPhrase1_notIn_saveToCsv : ¬ claimPhrase1.data <:+: joinLines saveToCsvLines :=
  not_infix_joinLines claimPhrase1.data (by decide) (by decide) saveToCsvLines (by decide)

set_option maxRecDepth 4000 in
set_option maxHeartbeats 40000000 in
/-- The first quoted phrase occurs in no line of `unnamed/part_000`. -/
theorem claimPhrase1_notIn_part000 : ¬ claimPhrase1.data <:+: joinLines part000Lines :=
  not_infix_joinLines claimPhrase1.data (by decide) (by decide) part000Lines (by decide)

set_option maxRecDepth 4000 in
set_option maxHeartbeats 4000000 in
/-- The first quoted phrase occurs in no line of `unnamed/part_001`. -/
theorem claimPhrase1_notIn_part001 : ¬ claimPhrase1.data <:+: joinLines part001Lines :=
  not_infix_joinLines claimPhrase1.data (by decide) (by decide) part001Lines (by decide)

set_option maxRecDepth 4000 in
set_option maxHeartbeats 4000000 in
/-- The second quoted phrase occurs in no line of `act_builds_get.js`. -/
theorem claimPhrase2_notIn_actBuildsGet : ¬ claimPhrase2.data <:+: joinLines actBuildsGetLines :=
  not_infix_joinLines claimPhrase2.data (by decide) (by decide) actBuildsGetLines (by decide)

set_option maxRecDepth 4000 in
set_option maxHeartbeats 16000000 in
/-- The second quoted phrase occurs in no line of `save_to_csv.md`. -/
theorem claimPhrase2_notIn_saveToCsv : ¬ claimPhrase2.data <:+: joinLines saveToCsvLines :=
  not_infix_joinLines claimPhrase2.data (by decide) (by decide) saveToCsvLines (by decide)

set_option maxRecDepth 4000 in
set_option maxHeartbeats 40000000 in
/-- The second quoted phrase occurs in no line of `unnamed/part_000`. -/
theorem claimPhrase2_notIn_part000 : ¬ claimPhrase2.data <:+: joinLines part000Lines :=
  not_infix_joinLines claimPhrase2.data (by decide) (by decide) part000Lines (by decide)

set_option maxRecDepth 4000 in
set_option maxHeartbeats 4000000 in
/-- The second quoted phrase occurs in no line of `unnamed/part_001`. -/
theorem claimPhrase2_notIn_part001 : ¬ claimPhrase2.data <:+: joinLines part001Lines :=
  not_infix_joinLines claimPhrase2.data (by decide) (by decide) part001Lines (by decide)

set_option maxRecDepth 4000 in
set_option maxHeartbeats 4000000 in
/-- The reassurance sentence opens line 72 of the lesson. -/
theorem actualPhrase1_in_line72 : actualPhrase1.data <:+: part000Line72.data := by decide

set_option maxRecDepth 4000 in
set_option maxHeartbeats 4000000 in
/-- The work-in-progress sentence opens line 182 of the lesson. -/
theorem actualPhrase2_in_line182 : actualPhrase2.data <:+: part000Line182.data := by decide

set_option maxRecDepth 4000 in
set_option maxHeartbeats 4000000 in
/-- Line 72 is a line of `unnamed/part_000`. -/
theorem line72_mem : part000Line72 ∈ part000Lines := by decide

set_option maxRecDepth 4000 in
set_option maxHeartbeats 4000000 in
/-- Line 182 is a line of `unnamed/part_000`. -/
theorem line182_mem : part000Line182 ∈ part000Lines := by decide

/-- C7 counterexample: the repository's source text does not contain the
substring "don't worry if you've never seen this before", nor the
substring "this course is incomplete": neither phrase occurs in any of the
four source files (the lesson says "Don't worry if this involves a lot of
things you've never seen before" and "This course is incomplete"), so the
claim, which asserts both containments, is false. -/
theorem c7_phrases_counterexample :
    ¬ ((claimPhrase1.data <:+: joinLines actBuildsGetLines ∨
        claimPhrase1.data <:+: joinLines saveToCsvLines ∨
        claimPhrase1.data <:+: joinLines part000Lines ∨
        claimPhrase1.data <:+: joinLines part001Lines) ∧
       (claimPhrase2.data <:+: joinLines actBuildsGetLines ∨
        claimPhrase2.data <:+: joinLines saveToCsvLines ∨
        claimPhrase2.data <:+: joinLines part000Lines ∨
        claimPhrase2.data <:+: joinLines part001Lines)) := by
  rintro ⟨h1, h2⟩
  rcases h1 with h | h | h | h
  · exact claimPhrase1_notIn_actBuildsGet h
  · exact claimPhrase1_notIn_saveToCsv h
  · exact claimPhrase1_notIn_part000 h
  · exact claimPhrase1_notIn_part001 h

/-- C7 (amended): the repository's content is explicitly introductory; the
lesson `unnamed/part_000` contains the sentence "Don't worry if this
involves a lot of things you've never seen before" (line 72) and the
sentence "This course is incomplete" (the work-in-progress notice), both
addressed to the reader, as substrings of its text. -/
theorem c7_introductory_phrases :
    actualPhrase1.data <:+: joinLines part000Lines ∧
    actualPhrase2.data <:+: joinLines part000Lines :=
  ⟨actualPhrase1_in_line72.trans (mem_infix_joinLines part000Lines part000Line72 line72_mem),
   actualPhrase2_in_line182.trans (mem_infix_joinLines part000Lines part000Line182 line182_mem)⟩

/-- The text cheerio reports for the `k`-th cell of a selection that has
one: `sel.eq(k).text()` is the text of that cell. -/
theorem eqText_of_some (sel : List HNode) (k : Nat) (td : HNode)
    (h : sel[k]? = some td) : eqText sel k = textOf td := by
  simp [eqText, h]

/-- The text cheerio reports past the end of a selection: `sel.eq(k)` is an
empty selection and its text is empty. -/
theorem eqText_of_none (sel : List HNode) (k : Nat)
    (h : sel[k]? = none) : eqText sel k = "" := by
  simp [eqText, h]

/-- Each of the six fields of the record built from a site listing is the
trimmed `eq(k)` text of its `div.td` selection. -/
theorem recordField_mk (site : HNode) (k : Nat) (hk : k < 6) :
    recordField (mkSiteRecord site) k = jsTrim (eqText (tdFields site) k) := by
  interval_cases k <;> simp [recordField, mkSiteRecord]

/-- C1: for every element matching `div.site-listing` in the downloaded
HTML, `main.js` produces exactly one result record (the `i`-th record for
the `i`-th element, and nothing else), and for k = 0..5 the record's
k-th field (rank, site, dailyTimeOnSite, dailyPageViews,
percentFromSearch, totalLinkingSites) is the text content of the
element's k-th `div.td` descendant with leading and trailing whitespace
removed. -/
theorem c1_each_listing_yields_one_record (doc : List HNode) (i : Nat) (site : HNode)
    (h : (siteListings doc)[i]? = some site) :
    (results doc).length = (siteListings doc).length ∧
    (results doc)[i]? = some (mkSiteRecord site) ∧
    ∀ (k : Nat) (td : HNode), k < 6 → (tdFields site)[k]? = some td →
      recordField (mkSiteRecord site) k = jsTrim (textOf td) := by
  refine ⟨List.length_map _ _, ?_, ?_⟩
  · rw [results, List.getElem?_map, h]; rfl
  · intro k td hk htd
    rw [recordField_mk site k hk, eqText_of_some (tdFields site) k td htd]

/-- C1 witness: on a one-listing document with six cells the record exists
and its `site` field is the trimmed text of the second cell. -/
theorem c1_each_listing_yields_one_record_witness :
    (siteListings sampleDoc)[0]? = some sampleSite ∧
    (tdFields sampleSite)[1]? = some (HNode.elem "div" ["td"] [.text " google.com "]) ∧
    (results sampleDoc)[0]? = some (mkSiteRecord sampleSite) ∧
    recordField (mkSiteRecord sampleSite) 1
      = jsTrim (textOf (HNode.elem "div" ["td"] [.text " google.com "])) := by
  have hsite : (siteListings sampleDoc)[0]? = some sampleSite := by
    simp [siteListings, findAllList, findAll, matchesSel, sampleDoc, sampleSite]
  have htd : (tdFields sampleSite)[1]? = some (HNode.elem "div" ["td"] [.text " google.com "]) := by
    simp [tdFields, findDescendants, findAllList, findAll, matchesSel, sampleSite, sampleTds]
  have h := c1_each_listing_yields_one_record sampleDoc 0 sampleSite hsite
  exact ⟨hsite, htd, h.2.1, h.2.2 1 _ (by decide) htd⟩

/-- C2: when the download, the parse and the conversion succeed, `main.js`
converts the results array by the single `parse(results)` call and writes
exactly the returned string, unmodified, to the file named
`alexa-websites.csv` — that pair is its only file write, whether or not
the write itself then succeeds. -/
theorem c2_csv_written_unmodified (env : CsvEnv) (body : String) (doc : List HNode)
    (csv : String)
    (hget : env.gotScraping "https://www.alexa.com/topsites" = .ok ⟨body⟩)
    (hload : env.cheerioLoad body = .ok doc)
    (hparse : env.parse (results doc) = .ok csv) :
    fileWrites (csvMainRun env).2 = [("alexa-websites.csv", csv)] ∧
    ((csvMainRun env).2.filter isCsvConvert).length = 1 := by
  cases hw : env.writeFileSync "alexa-websites.csv" csv <;>
    simp [csvMainRun, hget, hload, hparse, hw, fileWrites, isCsvConvert]

/-- C2 witness: in the all-succeeding environment the one write is the
parse result under the CSV file name. -/
theorem c2_csv_written_unmodified_witness :
    okEnv.gotScraping "https://www.alexa.com/topsites" = .ok ⟨"alexa html"⟩ ∧
    okEnv.cheerioLoad "alexa html" = .ok sampleDoc ∧
    okEnv.parse (results sampleDoc) = .ok "rank,site" ∧
    fileWrites (csvMainRun okEnv).2 = [("alexa-websites.csv", "rank,site")] ∧
    ((csvMainRun okEnv).2.filter isCsvConvert).length = 1 := by
  have h := c2_csv_written_unmodified okEnv "alexa html" sampleDoc "rank,site" rfl rfl rfl
  exact ⟨rfl, rfl, rfl, h.1, h.2⟩

/-- C3: no sample handles failures: in each of the three JavaScript
samples, an error raised by any awaited or called operation (the HTTP
download, the cheerio parse, the json2csv conversion, the file write, or
the API client call) ends the run with exactly that error value,
unchanged, and every run either completes normally or ends with the error
of one of its own operations — nothing is caught, retried or
transformed. -/
theorem c3_errors_propagate_unhandled :
    (∀ (env : CsvEnv) (e : JsError),
        env.gotScraping "https://www.alexa.com/topsites" = .error e →
        (csvMainRun env).1 = .error e) ∧
    (∀ (env : CsvEnv) (body : String) (e : JsError),
        env.gotScraping "https://www.alexa.com/topsites" = .ok ⟨body⟩ →
        env.cheerioLoad body = .error e →
        (csvMainRun env).1 = .error e) ∧
    (∀ (env : CsvEnv) (body : String) (doc : List HNode) (e : JsError),
        env.gotScraping "https://www.alexa.com/topsites" = .ok ⟨body⟩ →
        env.cheerioLoad body = .ok doc →
        env.parse (results doc) = .error e →
        (csvMainRun env).1 = .error e) ∧
    (∀ (env : CsvEnv) (body : String) (doc : List HNode) (csv : String) (e : JsError),
        env.gotScraping "https://www.alexa.com/topsites" = .ok ⟨body⟩ →
        env.cheerioLoad body = .ok doc →
        env.parse (results doc) = .ok csv →
        env.writeFileSync "alexa-websites.csv" csv = .error e →
        (csvMainRun env).1 = .error e) ∧
    (∀ env : CsvEnv, (csvMainRun env).1 = .ok () ∨
        ∃ e : JsError, (csvMainRun env).1 = .error e ∧
          (env.gotScraping "https://www.alexa.com/topsites" = .error e ∨
           (∃ body, env.cheerioLoad body = .error e) ∨
           (∃ rs, env.parse rs = .error e) ∨
           (∃ n c, env.writeFileSync n c = .error e))) ∧
    (∀ (α β : Type) (listBuilds : String → String → String → Except JsError (BuildList α β))
        (e : JsError),
        listBuilds "<TOKEN>" "<ACTOR ID>" "test" = .error e →
        (actBuildsGetRun listBuilds).1 = .error e) ∧
    (∀ (α β : Type) (listBuilds : String → String → String → Except JsError (BuildList α β)),
        (actBuildsGetRun listBuilds).1 = .ok () ∨
        ∃ e : JsError, (actBuildsGetRun listBuilds).1 = .error e ∧
          listBuilds "<TOKEN>" "<ACTOR ID>" "test" = .error e) ∧
    (∀ (γ : Type) (getVersion : String → String → String → Except JsError γ) (e : JsError),
        getVersion "my-token" "apify~my-sample-actor" "0.1" = .error e →
        (actVersionGetRun getVersion).1 = .error e) ∧
    (∀ (γ : Type) (getVersion : String → String → String → Except JsError γ),
        (actVersionGetRun getVersion).1 = .ok () ∨
        ∃ e : JsError, (actVersionGetRun getVersion).1 = .error e ∧
          getVersion "my-token" "apify~my-sample-actor" "0.1" = .error e) := by
  refine ⟨?_, ?_, ?_, ?_, ?_, ?_, ?_, ?_, ?_⟩
  · intro env e hg
    simp [csvMainRun, hg]
  · intro env body e hg hl
    simp [csvMainRun, hg, hl]
  · intro env body doc e hg hl hp
    simp [csvMainRun, hg, hl, hp]
  · intro env body doc csv e hg hl hp hw
    simp [csvMainRun, hg, hl, hp, hw]
  · intro env
    cases hg : env.gotScraping "https://www.alexa.com/topsites" with
    | error e => exact Or.inr ⟨e, by simp [csvMainRun, hg], Or.inl rfl⟩
    | ok r =>
      cases hl : env.cheerioLoad r.body with
      | error e =>
          exact Or.inr ⟨e, by simp [csvMainRun, hg, hl], Or.inr (Or.inl ⟨r.body, hl⟩)⟩
      | ok doc =>
        cases hp : env.parse (results doc) with
        | error e =>
            exact Or.inr ⟨e, by simp [csvMainRun, hg, hl, hp],
              Or.inr (Or.inr (Or.inl ⟨results doc, hp⟩))⟩
        | ok csv =>
          cases hw : env.writeFileSync "alexa-websites.csv" csv with
          | error e =>
              exact Or.inr ⟨e, by simp [csvMainRun, hg, hl, hp, hw],
                Or.inr (Or.inr (Or.inr ⟨"alexa-websites.csv", csv, hw⟩))⟩
          | ok u => exact Or.inl (by simp [csvMainRun, hg, hl, hp, hw])
  · intro α β listBuilds e h
    simp [actBuildsGetRun, h]
  · intro α β listBuilds
    cases h : listBuilds "<TOKEN>" "<ACTOR ID>" "test" with
    | error e => exact Or.inr ⟨e, by simp [actBuildsGetRun, h], rfl⟩
    | ok r => exact Or.inl (by simp [actBuildsGetRun, h])
  · intro γ getVersion e h
    simp [actVersionGetRun, h]
  · intro γ getVersion
    cases h : getVersion "my-token" "apify~my-sample-actor" "0.1" with
    | error e => exact Or.inr ⟨e, by simp [actVersionGetRun, h], rfl⟩
    | ok v => exact Or.inl (by simp [actVersionGetRun, h])

/-- C3 witness: a refused download ends `main.js` with that very error,
and a rejected list call ends the builds sample with its error. -/
theorem c3_errors_propagate_unhandled_witness :
    failEnv.gotScraping "https://www.alexa.com/topsites" = .error (.err "ECONNREFUSED") ∧
    (csvMainRun failEnv).1 = .error (.err "ECONNREFUSED") ∧
    failListBuilds "<TOKEN>" "<ACTOR ID>" "test" = .error (.err "Actor was not found") ∧
    (actBuildsGetRun failListBuilds).1 = .error (.err "Actor was not found") := by
  refine ⟨rfl, c3_errors_propagate_unhandled.1 failEnv _ rfl, rfl, ?_⟩
  exact c3_errors_propagate_unhandled.2.2.2.2.2.1 (List String) Nat failListBuilds _ rfl

/-- C4: each JavaScript API-client sample performs exactly one client
operation and logs the returned value unmodified: the builds sample calls
the build list of actor `<ACTOR ID>` with token `<TOKEN>` and argument
`test` and logs exactly the `items` field of the response; the version
sample calls version `0.1` of actor `apify~my-sample-actor` with token
`my-token` and logs the returned object; neither run holds any further
event. -/
theorem c4_api_samples_log_response {α β γ : Type}
    (listBuilds : String → String → String → Except JsError (BuildList α β))
    (getVersion : String → String → String → Except JsError γ) :
    (∀ resp, listBuilds "<TOKEN>" "<ACTOR ID>" "test" = .ok resp →
        actBuildsGetRun listBuilds
          = (.ok (), [.call "<TOKEN>" "<ACTOR ID>" "test", .consoleLog resp.items])) ∧
    (∀ v, getVersion "my-token" "apify~my-sample-actor" "0.1" = .ok v →
        actVersionGetRun getVersion
          = (.ok (), [.call "my-token" "apify~my-sample-actor" "0.1", .consoleLog v])) := by
  constructor
  · intro resp h
    simp [actBuildsGetRun, h]
  · intro v h
    simp [actVersionGetRun, h]

/-- C4 witness: with concrete client behaviors, both samples log the
returned data. -/
theorem c4_api_samples_log_response_witness :
    okListBuilds "<TOKEN>" "<ACTOR ID>" "test" = .ok ⟨["build1"], 1⟩ ∧
    actBuildsGetRun okListBuilds
      = (.ok (), [.call "<TOKEN>" "<ACTOR ID>" "test", .consoleLog ["build1"]]) ∧
    okGetVersion "my-token" "apify~my-sample-actor" "0.1" = .ok "version-0.1" ∧
    actVersionGetRun okGetVersion
      = (.ok (), [.call "my-token" "apify~my-sample-actor" "0.1", .consoleLog "version-0.1"]) := by
  have h := c4_api_samples_log_response okListBuilds okGetVersion
  exact ⟨rfl, h.1 ⟨["build1"], 1⟩ rfl, rfl, h.2 "version-0.1" rfl⟩

/-- C5: the default handler of the Crawlee "Hello World" sample, given a
handled page whose parsed document has a title element, prints exactly one
line — the text of that title element with leading and trailing
whitespace stripped — and does nothing else. -/
theorem c5_handler_prints_stripped_title (soup : List HNode) (t : HNode)
    (h : soupTitle soup = some t) :
    handle_listing soup = .ok [jsTrim (textOf t)] := by
  simp [handle_listing, h]

/-- C5 witness: on a page titled " Sales " the handler prints the single
line "Sales". -/
theorem c5_handler_prints_stripped_title_witness :
    soupTitle sampleSoup = some sampleTitle ∧
    handle_listing sampleSoup = .ok [jsTrim (textOf sampleTitle)] ∧
    jsTrim (textOf sampleTitle) = "Sales" := by
  have hs : soupTitle sampleSoup = some sampleTitle := by
    simp [soupTitle, findAllList, findAll, matchesSel, sampleSoup, sampleTitle]
  refine ⟨hs, c5_handler_prints_stripped_title sampleSoup sampleTitle hs, ?_⟩
  simp [sampleTitle, textOf, textOfList, jsTrim]

/-- C6: every JavaScript sample is a single straight-line sequential
program: in every run, whatever its operations return, the trace is
exactly the program-order sequence of the statements reached — the event
at position i of the trace is the event of statement i, so each awaited
operation completes before the next statement begins, and no other event
(in particular no spawned task) ever appears. -/
theorem c6_samples_straight_line :
    (∀ env : CsvEnv,
        (csvMainRun env).2.map eventStep = List.range (csvMainRun env).2.length) ∧
    (∀ (α β : Type) (listBuilds : String → String → String → Except JsError (BuildList α β)),
        (actBuildsGetRun listBuilds).2.map apiStep
          = List.range (actBuildsGetRun listBuilds).2.length) ∧
    (∀ (γ : Type) (getVersion : String → String → String → Except JsError γ),
        (actVersionGetRun getVersion).2.map apiStep
          = List.range (actVersionGetRun getVersion).2.length) := by
  refine ⟨?_, ?_, ?_⟩
  · intro env
    cases hg : env.gotScraping "https://www.alexa.com/topsites" with
    | error e => simp [csvMainRun, hg, eventStep]; decide
    | ok r =>
      cases hl : env.cheerioLoad r.body with
      | error e => simp [csvMainRun, hg, hl, eventStep]; decide
      | ok doc =>
        cases hp : env.parse (results doc) with
        | error e => simp [csvMainRun, hg, hl, hp, eventStep]; decide
        | ok csv =>
          cases hw : env.writeFileSync "alexa-websites.csv" csv with
          | error e => simp [csvMainRun, hg, hl, hp, hw, eventStep]; decide
          | ok u => simp [csvMainRun, hg, hl, hp, hw, eventStep]; decide
  · intro α β listBuilds
    cases h : listBuilds "<TOKEN>" "<ACTOR ID>" "test" with
    | error e => simp [actBuildsGetRun, h, apiStep]; decide
    | ok r => simp [actBuildsGetRun, h, apiStep]; decide
  · intro γ getVersion
    cases h : getVersion "my-token" "apify~my-sample-actor" "0.1" with
    | error e => simp [actVersionGetRun, h, apiStep]; decide
    | ok v => simp [actVersionGetRun, h, apiStep]; decide

/-- C8: building a record from a site listing never fails, even with fewer
than six `div.td` descendants: a field whose cell index is past the end of
the selection is the empty string rather than an error. -/
theorem c8_missing_cells_yield_empty (site : HNode) (k : Nat) (hk : k < 6)
    (h : (tdFields site).length ≤ k) :
    recordField (mkSiteRecord site) k = "" := by
  rw [recordField_mk site k hk, eqText_of_none (tdFields site) k (List.getElem?_eq_none h)]
  rfl

/-- C8 witness: a listing with one cell still yields a record, whose third
field is empty. -/
theorem c8_missing_cells_yield_empty_witness :
    (tdFields shortSite).length ≤ 2 ∧ 2 < 6 ∧
    recordField (mkSiteRecord shortSite) 2 = "" := by
  have hlen : (tdFields shortSite).length ≤ 2 := by
    simp [tdFields, findDescendants, findAllList, findAll, matchesSel, shortSite]
  exact ⟨hlen, by decide, c8_missing_cells_yield_empty shortSite 2 (by decide) hlen⟩

/-- C9: the results array preserves the count and order of the input: for
every document it has exactly as many records as there are
`div.site-listing` matches, and its i-th record is the one built from the
i-th such element in document order. -/
theorem c9_results_preserve_count_order (doc : List HNode) :
    (results doc).length = (siteListings doc).length ∧
    ∀ i : Nat, (results doc)[i]? = ((siteListings doc)[i]?).map mkSiteRecord := by
  refine ⟨List.length_map _ _, ?_⟩
  intro i
  rw [results, List.getElem?_map]

/-- C10: the transformation from response body to CSV string and file
contents is deterministic: two runs whose downloads return the same body,
against the same parsing and conversion functions, produce the same
results arrays, the same CSV string, and perform exactly the same file
writes — whatever else (such as the disk's behavior) differs between the
two runs. -/
theorem c10_pipeline_deterministic (env1 env2 : CsvEnv) (body : String)
    (h1 : env1.gotScraping "https://www.alexa.com/topsites" = .ok ⟨body⟩)
    (h2 : env2.gotScraping "https://www.alexa.com/topsites" = .ok ⟨body⟩)
    (hload : env1.cheerioLoad = env2.cheerioLoad)
    (hparse : env1.parse = env2.parse) :
    (∀ doc1 doc2, env1.cheerioLoad body = .ok doc1 → env2.cheerioLoad body = .ok doc2 →
        results doc1 = results doc2) ∧
    (∀ doc1 doc2 csv1 csv2,
        env1.cheerioLoad body = .ok doc1 → env2.cheerioLoad body = .ok doc2 →
        env1.parse (results doc1) = .ok csv1 → env2.parse (results doc2) = .ok csv2 →
        csv1 = csv2) ∧
    fileWrites (csvMainRun env1).2 = fileWrites (csvMainRun env2).2 := by
  have hdocs : ∀ doc1 doc2, env1.cheerioLoad body = .ok doc1 →
      env2.cheerioLoad body = .ok doc2 → doc1 = doc2 := by
    intro doc1 doc2 ha hb
    rw [hload, hb] at ha
    injection ha with h
    exact h.symm
  refine ⟨?_, ?_, ?_⟩
  · intro doc1 doc2 ha hb
    rw [hdocs doc1 doc2 ha hb]
  · intro doc1 doc2 csv1 csv2 ha hb hp1 hp2
    rw [hdocs doc1 doc2 ha hb, hparse, hp2] at hp1
    injection hp1 with h
    exact h.symm
  · cases hl : env1.cheerioLoad body with
    | error e =>
        have hl2 : env2.cheerioLoad body = .error e := by rw [← hload]; exact hl
        simp [csvMainRun, h1, h2, hl, hl2, fileWrites]
    | ok doc =>
        have hl2 : env2.cheerioLoad body = .ok doc := by rw [← hload]; exact hl
        cases hp : env1.parse (results doc) with
        | error e =>
            have hp2 : env2.parse (results doc) = .error e := by rw [← hparse]; exact hp
            simp [csvMainRun, h1, h2, hl, hl2, hp, hp2, fileWrites]
        | ok csv =>
            have hp2 : env2.parse (results doc) = .ok csv := by rw [← hparse]; exact hp
            cases hw1 : env1.writeFileSync "alexa-websites.csv" csv <;>
              cases hw2 : env2.writeFileSync "alexa-websites.csv" csv <;>
                simp [csvMainRun, h1, h2, hl, hl2, hp, hp2, hw1, hw2, fileWrites]

/-- C10 witness: two environments sharing the download body and the
libraries but with different disks perform the same file writes. -/
theorem c10_pipeline_deterministic_witness :
    okEnv.gotScraping "https://www.alexa.com/topsites" = .ok ⟨"alexa html"⟩ ∧
    okEnv2.gotScraping "https://www.alexa.com/topsites" = .ok ⟨"alexa html"⟩ ∧
    okEnv.cheerioLoad = okEnv2.cheerioLoad ∧
    okEnv.parse = okEnv2.parse ∧
    fileWrites (csvMainRun okEnv).2 = fileWrites (csvMainRun okEnv2).2 := by
  have h := c10_pipeline_deterministic okEnv okEnv2 "alexa html" rfl rfl rfl rfl
  exact ⟨rfl, rfl, rfl, rfl, h.2.2⟩
